import Mathlib

/-!
Shallow embedding of the useCachedQuery hook (src/unnamed/part_000).

The hook keeps four useState cells (data, loading, isOffline, refreshing),
one memoised async callback loadData(isRefresh) and a useEffect keyed on it.
One activation of loadData suspends at three points: awaiting the producer
(fetcher), awaiting AsyncStorage.setItem on success, and awaiting
AsyncStorage.getItem in the catch block.  Everything between two suspension
points runs atomically on the single JS event loop.

We embed the code twice, from the same per-segment definitions:
  - loadData : the sequential semantics of one activation run to completion
    with no interleaving;
  - step/run : a small-step machine where several activations of the same
    hook instance can be in flight at once and their awaited promises
    resolve in any order (the JS interleaving semantics);
  - seqStep/seqRun : the same machine restricted to the schedules in which
    an activation is only started while none is in flight.
JSON.stringify / JSON.parse are abstracted as a stringify/parse pair of
total functions, and AsyncStorage as an association list keyed by string.
-/

/-- Transient per-instance query state: the four useState cells of the hook
(part_000 lines 8-11). data is none while nothing has ever been stored into
setData (useState of T-or-null starts at null). -/
structure QueryState (T : Type) where
  data : Option T
  loading : Bool
  isOffline : Bool
  refreshing : Bool
deriving Repr, DecidableEq

/-- Initial values of the four useState cells: null, true, false, false. -/
def initState (T : Type) : QueryState T :=
  ⟨none, true, false, false⟩

/-- Durable key-value store (AsyncStorage), modelled as an association list
from string keys to stored strings. -/
abbrev Store := List (String × String)

/-- AsyncStorage.getItem: the stored string under k, or none. -/
def Store.get (s : Store) (k : String) : Option String :=
  match s with
  | [] => none
  | (k2, v) :: rest => if k2 = k then some v else Store.get rest k

/-- AsyncStorage.setItem: overwrite the entry under k (a key-value map holds
at most one entry per key). -/
def Store.set (s : Store) (k : String) (v : String) : Store :=
  (k, v) :: s.filter (fun p => p.1 != k)

/-- Number of entries the store holds under key k. -/
def Store.countKey (s : Store) (k : String) : Nat :=
  (s.filter (fun p => p.1 == k)).length

/-- Outcome of awaiting one producer (fetcher) call: resolved with a value,
or rejected. -/
inductive FetchOutcome (T : Type) where
  | ok (v : T)
  | err
deriving Repr, DecidableEq

/-- First synchronous segment of loadData (lines 14-15): set the in-flight
flag named by isRefresh, then suspend at the fetcher call. -/
def startSeg {T : Type} (isRefresh : Bool) (st : QueryState T) : QueryState T :=
  if isRefresh then { st with refreshing := true } else { st with loading := true }

/-- Synchronous segment run when AsyncStorage.setItem resolves (lines 22-24
followed directly by the finally block, lines 42-43): the serialized result
is now stored under key, setData(result), setIsOffline(false), then
setLoading(false) and setRefreshing(false). -/
def successSeg {T : Type} (key : String) (stringify : T → String) (v : T)
    (st : QueryState T) (store : Store) : QueryState T × Store :=
  ({ st with data := some v, isOffline := false, loading := false, refreshing := false },
   Store.set store key (stringify v))

/-- Synchronous segment run when AsyncStorage.getItem resolves in the catch
block (lines 31-40 followed by the finally block): if an entry exists,
setData(JSON.parse(cached)) and setIsOffline(true); otherwise only
setIsOffline(true); then both in-flight flags are cleared. -/
def fallbackSeg {T : Type} (key : String) (parse : String → T)
    (st : QueryState T) (store : Store) : QueryState T :=
  match Store.get store key with
  | some cached =>
      { st with data := some (parse cached), isOffline := true,
                loading := false, refreshing := false }
  | none =>
      { st with isOffline := true, loading := false, refreshing := false }

/-- Segment run when AsyncStorage.getItem itself rejects inside the catch
block: the error escapes the catch, only the finally block (lines 42-43)
runs, and the promise returned by loadData rejects. -/
def rejectSeg {T : Type} (st : QueryState T) : QueryState T :=
  { st with loading := false, refreshing := false }

/-- Result of one completed activation of loadData: final hook state, final
store contents, and whether the promise returned by loadData rejected. -/
structure LoadResult (T : Type) where
  state : QueryState T
  store : Store
  rejected : Bool
deriving Repr, DecidableEq

/-- Sequential semantics of one activation loadData(isRefresh) run to
completion with no interleaving (part_000 lines 13-44).  fetch is the
producer's outcome; setOk and getOk say whether the AsyncStorage setItem
and getItem promises resolve (false = reject).  A setItem rejection is
caught by the same catch block as a fetcher rejection and performs no
write; a getItem rejection escapes the catch, so only the finally block
runs and the activation's promise rejects. -/
def loadData {T : Type} (key : String) (stringify : T → String) (parse : String → T)
    (fetch : FetchOutcome T) (setOk getOk : Bool) (isRefresh : Bool)
    (st : QueryState T) (store : Store) : LoadResult T :=
  let st1 := startSeg isRefresh st
  match fetch with
  | .ok v =>
      if setOk then
        let p := successSeg key stringify v st1 store
        ⟨p.1, p.2, false⟩
      else if getOk then
        ⟨fallbackSeg key parse st1 store, store, false⟩
      else
        ⟨rejectSeg st1, store, true⟩
  | .err =>
      if getOk then
        ⟨fallbackSeg key parse st1 store, store, false⟩
      else
        ⟨rejectSeg st1, store, true⟩

/-- Suspension point at which a pending activation of loadData is parked,
or its terminal status. -/
inductive Phase (T : Type) where
  | awaitingFetch
  | awaitingSet (v : T)
  | awaitingGet
  | done
  | rejected
deriving Repr, DecidableEq

/-- One in-flight or finished activation of loadData for this hook
instance: the isRefresh argument it was started with, and its phase. -/
structure Job (T : Type) where
  isRefresh : Bool
  phase : Phase T
deriving Repr, DecidableEq

/-- Global configuration of one hook instance: the shared useState cells,
the shared store, and every activation started so far (in start order). -/
structure Config (T : Type) where
  qs : QueryState T
  store : Store
  tasks : List (Job T)
deriving Repr, DecidableEq

/-- Scheduler events: start a new activation (the synchronous prefix up to
the fetcher call runs at once), or resolve/reject the awaited promise of
activation number i. -/
inductive Event (T : Type) where
  | start (isRefresh : Bool)
  | fetchOk (i : Nat) (v : T)
  | fetchErr (i : Nat)
  | setOk (i : Nat)
  | setErr (i : Nat)
  | getOk (i : Nat)
  | getErr (i : Nat)
deriving Repr, DecidableEq

/-- Small-step interleaving semantics of the hook: each event runs exactly
the synchronous segment of the code the resolved promise continues into.
Events that do not match the addressed activation's phase are no-ops. -/
def step {T : Type} (key : String) (stringify : T → String) (parse : String → T)
    (c : Config T) (e : Event T) : Config T :=
  match e with
  | .start b =>
      { qs := startSeg b c.qs, store := c.store,
        tasks := c.tasks ++ [⟨b, .awaitingFetch⟩] }
  | .fetchOk i v =>
      match c.tasks[i]? with
      | some ⟨b, .awaitingFetch⟩ => { c with tasks := c.tasks.set i ⟨b, .awaitingSet v⟩ }
      | _ => c
  | .fetchErr i =>
      match c.tasks[i]? with
      | some ⟨b, .awaitingFetch⟩ => { c with tasks := c.tasks.set i ⟨b, .awaitingGet⟩ }
      | _ => c
  | .setOk i =>
      match c.tasks[i]? with
      | some ⟨b, .awaitingSet v⟩ =>
          let p := successSeg key stringify v c.qs c.store
          { qs := p.1, store := p.2, tasks := c.tasks.set i ⟨b, .done⟩ }
      | _ => c
  | .setErr i =>
      match c.tasks[i]? with
      | some ⟨b, .awaitingSet _⟩ => { c with tasks := c.tasks.set i ⟨b, .awaitingGet⟩ }
      | _ => c
  | .getOk i =>
      match c.tasks[i]? with
      | some ⟨b, .awaitingGet⟩ =>
          { qs := fallbackSeg key parse c.qs c.store, store := c.store,
            tasks := c.tasks.set i ⟨b, .done⟩ }
      | _ => c
  | .getErr i =>
      match c.tasks[i]? with
      | some ⟨b, .awaitingGet⟩ =>
          { qs := rejectSeg c.qs, store := c.store,
            tasks := c.tasks.set i ⟨b, .rejected⟩ }
      | _ => c

/-- Run the interleaving machine over a list of scheduler events. -/
def run {T : Type} (key : String) (stringify : T → String) (parse : String → T)
    (c : Config T) : List (Event T) → Config T
  | [] => c
  | e :: es => run key stringify parse (step key stringify parse c e) es

/-- Configuration of the machine restricted to sequential schedules: at most
one activation is in flight (current); starting a new one while another is
in flight is impossible (the start event is then a no-op). -/
structure SeqConfig (T : Type) where
  qs : QueryState T
  store : Store
  current : Option (Bool × Phase T)
deriving Repr, DecidableEq

/-- Small-step semantics under a sequential scheduler: the same code
segments as step, but a start event is honoured only while no activation
is in flight. -/
def seqStep {T : Type} (key : String) (stringify : T → String) (parse : String → T)
    (c : SeqConfig T) (e : Event T) : SeqConfig T :=
  match e, c.current with
  | .start b, none =>
      { qs := startSeg b c.qs, store := c.store, current := some (b, .awaitingFetch) }
  | .fetchOk _ v, some (b, .awaitingFetch) =>
      { c with current := some (b, .awaitingSet v) }
  | .fetchErr _, some (b, .awaitingFetch) =>
      { c with current := some (b, .awaitingGet) }
  | .setOk _, some (_, .awaitingSet v) =>
      let p := successSeg key stringify v c.qs c.store
      { qs := p.1, store := p.2, current := none }
  | .setErr _, some (b, .awaitingSet _) =>
      { c with current := some (b, .awaitingGet) }
  | .getOk _, some (_, .awaitingGet) =>
      { qs := fallbackSeg key parse c.qs c.store, store := c.store, current := none }
  | .getErr _, some (_, .awaitingGet) =>
      { qs := rejectSeg c.qs, store := c.store, current := none }
  | _, _ => c

/-- Run the sequential-scheduler machine over a list of events. -/
def seqRun {T : Type} (key : String) (stringify : T → String) (parse : String → T)
    (c : SeqConfig T) : List (Event T) → SeqConfig T
  | [] => c
  | e :: es => seqRun key stringify parse (seqStep key stringify parse c e) es

/-- Configuration right after mount: the useState cells hold their initial
values and the useEffect has fired the automatic loadData() (isRefresh
false), which is parked at the fetcher call. -/
def mountSeq {T : Type} (key : String) (stringify : T → String) (parse : String → T)
    (store : Store) : SeqConfig T :=
  seqStep key stringify parse ⟨initState T, store, none⟩ (.start false)

/-- Per-render bookkeeping React holds for this hook instance: besides the
useState cells and the store, the deps entry recorded by useCallback
(memoKey, line 45: deps array is exactly the key), the identity of the
memoised loadData closure (callbackId), and the loadData identity the
useEffect last ran with (effectDepId, lines 48-50: deps array is exactly
loadData; none before the mount effect has run). -/
structure Hook (T : Type) where
  qs : QueryState T
  store : Store
  memoKey : String
  callbackId : Nat
  effectDepId : Option Nat
deriving Repr, DecidableEq

/-- Awaited outcomes of one activation that is run to completion. -/
structure Activation (T : Type) where
  fetch : FetchOutcome T
  setOk : Bool
  getOk : Bool
deriving Repr, DecidableEq

/-- One render of useCachedQuery with props key and fetcherId, followed by
React's effect phase.  useCallback with deps array containing exactly key
keeps the old loadData identity iff key is unchanged, else creates a fresh
one; useEffect with deps array containing exactly loadData runs
loadData() (isRefresh = false) iff that identity changed since the effect
last ran.  fetcherId, the identity of the producer closure, appears in
neither deps array, so it cannot influence anything.  out supplies the
awaited outcomes when the effect does run its activation to completion. -/
def render {T : Type} (stringify : T → String) (parse : String → T)
    (h : Hook T) (key : String) (_fetcherId : Nat) (out : Activation T) : Hook T :=
  let cbId := if key = h.memoKey then h.callbackId else h.callbackId + 1
  if some cbId = h.effectDepId then
    { h with memoKey := key, callbackId := cbId }
  else
    let r := loadData key stringify parse out.fetch out.setOk out.getOk false h.qs h.store
    { qs := r.state, store := r.store, memoKey := key, callbackId := cbId,
      effectDepId := some cbId }

theorem Store.get_set (s : Store) (k v : String) :
    Store.get (Store.set s k v) k = some v := by
  simp [Store.get, Store.set]

theorem Store.filter_ne_then_eq (s : Store) (k : String) :
    (s.filter (fun p => p.1 != k)).filter (fun p => p.1 == k) = [] := by
  induction s with
  | nil => rfl
  | cons p rest ih =>
      by_cases h : p.1 == k
      · simp [List.filter, h, bne, ih]
      · simp [List.filter, h, bne, ih]

theorem Store.countKey_set (s : Store) (k v : String) :
    Store.countKey (Store.set s k v) k = 1 := by
  simp [Store.countKey, Store.set, List.filter, Store.filter_ne_then_eq s k]

theorem fallbackSeg_loading {T : Type} (key : String) (parse : String → T)
    (st : QueryState T) (store : Store) :
    (fallbackSeg key parse st store).loading = false := by
  cases h : Store.get store key <;> simp [fallbackSeg, h]

theorem fallbackSeg_refreshing {T : Type} (key : String) (parse : String → T)
    (st : QueryState T) (store : Store) :
    (fallbackSeg key parse st store).refreshing = false := by
  cases h : Store.get store key <;> simp [fallbackSeg, h]

/-- C1: for every key and every producer that resolves with value v (the
store write resolving as the store is assumed reliable), after the
activation completes, data equals v, loading and refreshing are false,
isOffline is false, and the store holds exactly one entry under the key,
the serialized copy of v, overwriting any prior entry; the activation's
promise does not reject. -/
theorem loadData_success_final {T : Type} (key : String) (stringify : T → String)
    (parse : String → T) (v : T) (getOk isRefresh : Bool)
    (st : QueryState T) (store : Store) :
    (loadData key stringify parse (.ok v) true getOk isRefresh st store).state.data = some v ∧
    (loadData key stringify parse (.ok v) true getOk isRefresh st store).state.loading = false ∧
    (loadData key stringify parse (.ok v) true getOk isRefresh st store).state.refreshing = false ∧
    (loadData key stringify parse (.ok v) true getOk isRefresh st store).state.isOffline = false ∧
    Store.get (loadData key stringify parse (.ok v) true getOk isRefresh st store).store key
      = some (stringify v) ∧
    Store.countKey (loadData key stringify parse (.ok v) true getOk isRefresh st store).store key
      = 1 ∧
    (loadData key stringify parse (.ok v) true getOk isRefresh st store).rejected = false := by
  cases isRefresh <;>
    simp [loadData, successSeg, startSeg, Store.get_set, Store.countKey_set]

/-- C2: for every key and every producer that rejects (the store read
resolving), after the activation completes: if the store held a value
under the key, data is its deserialization and isOffline is true and
loading is false; if not, data is left unchanged (so still empty on a
first load) and isOffline is true; the store itself is untouched. -/
theorem loadData_failure_fallback {T : Type} (key : String) (stringify : T → String)
    (parse : String → T) (setOk isRefresh : Bool) (st : QueryState T) (store : Store) :
    (loadData key stringify parse .err setOk true isRefresh st store).state.isOffline = true ∧
    (loadData key stringify parse .err setOk true isRefresh st store).state.loading = false ∧
    (loadData key stringify parse .err setOk true isRefresh st store).state.data
      = (match Store.get store key with
         | some c => some (parse c)
         | none => st.data) ∧
    (loadData key stringify parse .err setOk true isRefresh st store).store = store := by
  cases isRefresh <;> cases hget : Store.get store key <;>
    simp [loadData, fallbackSeg, startSeg, hget]

/-- C4: every completed activation leaves both in-flight flags false on
every exit path: producer success, producer or store-write failure with
or without a cached fallback, and even the path on which the store read
rejects and the activation's own promise rejects (the finally block runs
on every exit path). -/
theorem loadData_clears_flags {T : Type} (key : String) (stringify : T → String)
    (parse : String → T) (fetch : FetchOutcome T) (setOk getOk isRefresh : Bool)
    (st : QueryState T) (store : Store) :
    (loadData key stringify parse fetch setOk getOk isRefresh st store).state.loading = false ∧
    (loadData key stringify parse fetch setOk getOk isRefresh st store).state.refreshing
      = false := by
  cases fetch <;> cases setOk <;> cases getOk <;> cases isRefresh <;>
    simp [loadData, successSeg, rejectSeg, startSeg,
      fallbackSeg_loading, fallbackSeg_refreshing]

/-- C10: if the producer resolves with v but the subsequent store write
rejects, the catch branch runs instead of the success tail: the store is
left unchanged, isOffline becomes true, the activation does not reject,
and data is not set to the fresh result v but to the deserialization of
the previously stored entry when one exists and is otherwise left
unchanged — the fresh result is silently discarded. -/
theorem setItem_failure_discards_result {T : Type} (key : String) (stringify : T → String)
    (parse : String → T) (v : T) (isRefresh : Bool) (st : QueryState T) (store : Store) :
    (loadData key stringify parse (.ok v) false true isRefresh st store).store = store ∧
    (loadData key stringify parse (.ok v) false true isRefresh st store).state.isOffline = true ∧
    (loadData key stringify parse (.ok v) false true isRefresh st store).rejected = false ∧
    (loadData key stringify parse (.ok v) false true isRefresh st store).state.data
      = (match Store.get store key with
         | some c => some (parse c)
         | none => st.data) := by
  cases isRefresh <;> cases hget : Store.get store key <;>
    simp [loadData, fallbackSeg, startSeg, hget]

/-- C7: two refresh calls in sequence, each awaited to completion and each
with a succeeding producer, leave data equal to the second call's
resolved value, loading, refreshing and isOffline all false, and exactly
one store entry under the key, holding the second serialized value. -/
theorem refresh_twice_idempotent {T : Type} (key : String) (stringify : T → String)
    (parse : String → T) (v1 v2 : T) (g1 g2 : Bool) (st : QueryState T) (store : Store) :
    (loadData key stringify parse (.ok v2) true g2 true
        (loadData key stringify parse (.ok v1) true g1 true st store).state
        (loadData key stringify parse (.ok v1) true g1 true st store).store).state.data
      = some v2 ∧
    (loadData key stringify parse (.ok v2) true g2 true
        (loadData key stringify parse (.ok v1) true g1 true st store).state
        (loadData key stringify parse (.ok v1) true g1 true st store).store).state.loading
      = false ∧
    (loadData key stringify parse (.ok v2) true g2 true
        (loadData key stringify parse (.ok v1) true g1 true st store).state
        (loadData key stringify parse (.ok v1) true g1 true st store).store).state.refreshing
      = false ∧
    (loadData key stringify parse (.ok v2) true g2 true
        (loadData key stringify parse (.ok v1) true g1 true st store).state
        (loadData key stringify parse (.ok v1) true g1 true st store).store).state.isOffline
      = false ∧
    Store.get (loadData key stringify parse (.ok v2) true g2 true
        (loadData key stringify parse (.ok v1) true g1 true st store).state
        (loadData key stringify parse (.ok v1) true g1 true st store).store).store key
      = some (stringify v2) ∧
    Store.countKey (loadData key stringify parse (.ok v2) true g2 true
        (loadData key stringify parse (.ok v1) true g1 true st store).state
        (loadData key stringify parse (.ok v1) true g1 true st store).store).store key
      = 1 := by
  simp [loadData, successSeg, startSeg, Store.get_set, Store.countKey_set]

theorem fallbackSeg_isOffline {T : Type} (key : String) (parse : String → T)
    (st : QueryState T) (store : Store) :
    (fallbackSeg key parse st store).isOffline = true := by
  cases h : Store.get store key <;> simp [fallbackSeg, h]

/-- Mutual-exclusion invariant of the sequential machine: while no
activation is in flight both flags are clear, and an in-flight activation
holds exactly the flag named by its isRefresh argument. -/
def flagsOk {T : Type} (c : SeqConfig T) : Prop :=
  match c.current with
  | none => c.qs.loading = false ∧ c.qs.refreshing = false
  | some (false, _) => c.qs.loading = true ∧ c.qs.refreshing = false
  | some (true, _) => c.qs.refreshing = true ∧ c.qs.loading = false

theorem flagsOk_step {T : Type} (key : String) (stringify : T → String)
    (parse : String → T) (c : SeqConfig T) (e : Event T) (h : flagsOk c) :
    flagsOk (seqStep key stringify parse c e) := by
  obtain ⟨qs, store, cur⟩ := c
  rcases cur with _ | ⟨b, ph⟩
  · cases e with
    | start b2 =>
        cases b2 <;>
          simp_all [seqStep, flagsOk, startSeg]
    | fetchOk i v => simpa [seqStep, flagsOk] using h
    | fetchErr i => simpa [seqStep, flagsOk] using h
    | setOk i => simpa [seqStep, flagsOk] using h
    | setErr i => simpa [seqStep, flagsOk] using h
    | getOk i => simpa [seqStep, flagsOk] using h
    | getErr i => simpa [seqStep, flagsOk] using h
  · cases b <;> cases ph <;> cases e <;>
      simp_all [seqStep, flagsOk, startSeg, successSeg, rejectSeg,
        fallbackSeg_loading, fallbackSeg_refreshing]

theorem flagsOk_seqRun {T : Type} (key : String) (stringify : T → String)
    (parse : String → T) (evs : List (Event T)) (c : SeqConfig T) (h : flagsOk c) :
    flagsOk (seqRun key stringify parse c evs) := by
  induction evs generalizing c with
  | nil => exact h
  | cons e es ih => exact ih _ (flagsOk_step key stringify parse c e h)

theorem flagsOk_mutex {T : Type} (c : SeqConfig T) (h : flagsOk c) :
    (c.qs.loading && c.qs.refreshing) = false := by
  obtain ⟨qs, store, cur⟩ := c
  rcases cur with _ | ⟨b, ph⟩
  · simp only [flagsOk] at h
    simp [h.1]
  · cases b <;> simp only [flagsOk] at h <;> simp [h.1, h.2]

theorem flagsOk_mountSeq {T : Type} (key : String) (stringify : T → String)
    (parse : String → T) (store : Store) :
    flagsOk (mountSeq key stringify parse (T := T) store) := by
  simp [mountSeq, seqStep, startSeg, initState, flagsOk]

/-- C3 (counterexample): the state in which the automatic initial load is
still awaiting its producer and a refresh has just been triggered is
reachable, and there both loading and refreshing are true at once. -/
theorem overlap_both_flags_true :
    (run "k" (fun n : Nat => toString n) (fun s => s.length)
        ⟨initState Nat, [], []⟩ [.start false, .start true]).qs.loading = true ∧
    (run "k" (fun n : Nat => toString n) (fun s => s.length)
        ⟨initState Nat, [], []⟩ [.start false, .start true]).qs.refreshing = true := by
  constructor <;> rfl

/-- C3 (amended): under a sequential scheduler — the automatic initial load
is the first activation and a new activation starts only while none is in
flight — every reachable state of the instance has at most one of loading
and refreshing true. -/
theorem seq_flags_mutually_exclusive {T : Type} (key : String) (stringify : T → String)
    (parse : String → T) (store : Store) (evs : List (Event T)) :
    ((seqRun key stringify parse (mountSeq key stringify parse store) evs).qs.loading
      && (seqRun key stringify parse (mountSeq key stringify parse store) evs).qs.refreshing)
      = false :=
  flagsOk_mutex _
    (flagsOk_seqRun key stringify parse evs _ (flagsOk_mountSeq key stringify parse store))

/-- C5 (counterexample): with a rejecting producer and a store read that
also rejects inside the catch block, the activation's promise rejects —
this storage error is not absorbed, and refresh(), which returns that very
promise, propagates it to the caller. -/
theorem getItem_failure_rejects :
    (loadData "k" (fun n : Nat => toString n) (fun s => s.length)
        .err true false true (initState Nat) []).rejected = true := by
  rfl

/-- C5 (amended): producer rejections and store-write failures are fully
absorbed — whenever the store read resolves, the activation's promise
never rejects, and a failure only raises the stale flag; but when the
store read itself rejects inside the catch block, the error escapes and
the promise returned by refresh() rejects. -/
theorem absorbs_errors_when_read_ok {T : Type} (key : String) (stringify : T → String)
    (parse : String → T) (fetch : FetchOutcome T) (setOk getOk isRefresh : Bool)
    (st : QueryState T) (store : Store) (hget : getOk = true) :
    (loadData key stringify parse fetch setOk getOk isRefresh st store).rejected = false ∧
    (fetch = .err →
      (loadData key stringify parse fetch setOk getOk isRefresh st store).state.isOffline
        = true) := by
  subst hget
  cases fetch <;> cases setOk <;> cases isRefresh <;>
    simp [loadData, successSeg, startSeg, fallbackSeg_isOffline]

/-- C5 (witness): a concrete failing producer with a resolving store read —
the activation does not reject and ends marked offline. -/
theorem absorbs_errors_when_read_ok_witness :
    (loadData "k" (fun n : Nat => toString n) (fun s => s.length)
        .err true true false (initState Nat) []).rejected = false ∧
    ((FetchOutcome.err : FetchOutcome Nat) = .err →
      (loadData "k" (fun n : Nat => toString n) (fun s => s.length)
          .err true true false (initState Nat) []).state.isOffline = true) :=
  absorbs_errors_when_read_ok "k" (fun n : Nat => toString n) (fun s => s.length)
    .err true true false (initState Nat) [] rfl

/-- C8: race between the automatic initial load (slow, resolving last with
v1) and a manual refresh on the same key (fast, resolving first with a
different value v2): both attempts succeed, yet data and the store end at
v1 — the attempt whose promises resolved last wins, not the one initiated
last — and all three flags end false. -/
theorem race_last_resolved_wins {T : Type} (key : String) (stringify : T → String)
    (parse : String → T) (v1 v2 : T) (store : Store) (_hne : v1 ≠ v2) :
    (run key stringify parse ⟨initState T, store, []⟩
        [.start false, .start true, .fetchOk 1 v2, .setOk 1,
         .fetchOk 0 v1, .setOk 0]).qs.data = some v1 ∧
    (run key stringify parse ⟨initState T, store, []⟩
        [.start false, .start true, .fetchOk 1 v2, .setOk 1,
         .fetchOk 0 v1, .setOk 0]).qs.loading = false ∧
    (run key stringify parse ⟨initState T, store, []⟩
        [.start false, .start true, .fetchOk 1 v2, .setOk 1,
         .fetchOk 0 v1, .setOk 0]).qs.refreshing = false ∧
    (run key stringify parse ⟨initState T, store, []⟩
        [.start false, .start true, .fetchOk 1 v2, .setOk 1,
         .fetchOk 0 v1, .setOk 0]).qs.isOffline = false ∧
    Store.get (run key stringify parse ⟨initState T, store, []⟩
        [.start false, .start true, .fetchOk 1 v2, .setOk 1,
         .fetchOk 0 v1, .setOk 0]).store key = some (stringify v1) := by
  simp [run, step, successSeg, startSeg, Store.get_set]

/-- C8 (witness): the race at a concrete key and pair of distinct values. -/
theorem race_last_resolved_wins_witness :
    (1 : Nat) ≠ 2 ∧
    ((run "k" (fun n : Nat => toString n) (fun s => s.length) ⟨initState Nat, [], []⟩
        [.start false, .start true, .fetchOk 1 2, .setOk 1,
         .fetchOk 0 1, .setOk 0]).qs.data = some 1 ∧
    (run "k" (fun n : Nat => toString n) (fun s => s.length) ⟨initState Nat, [], []⟩
        [.start false, .start true, .fetchOk 1 2, .setOk 1,
         .fetchOk 0 1, .setOk 0]).qs.loading = false ∧
    (run "k" (fun n : Nat => toString n) (fun s => s.length) ⟨initState Nat, [], []⟩
        [.start false, .start true, .fetchOk 1 2, .setOk 1,
         .fetchOk 0 1, .setOk 0]).qs.refreshing = false ∧
    (run "k" (fun n : Nat => toString n) (fun s => s.length) ⟨initState Nat, [], []⟩
        [.start false, .start true, .fetchOk 1 2, .setOk 1,
         .fetchOk 0 1, .setOk 0]).qs.isOffline = false ∧
    Store.get (run "k" (fun n : Nat => toString n) (fun s => s.length) ⟨initState Nat, [], []⟩
        [.start false, .start true, .fetchOk 1 2, .setOk 1,
         .fetchOk 0 1, .setOk 0]).store "k" = some (toString (1 : Nat))) :=
  ⟨by decide,
   race_last_resolved_wins "k" (fun n : Nat => toString n) (fun s => s.length) 1 2 []
     (by decide)⟩

/-- A state/store pair is in sync for a key when the in-memory value is
either still empty or exactly the deserialization of the stored entry.
This holds after mount and is preserved by every activation, since the
success path writes the store before setting the value and the fallback
path sets the value from the store. -/
def Synced {T : Type} (key : String) (parse : String → T)
    (st : QueryState T) (store : Store) : Prop :=
  st.data = none ∨ st.data = (Store.get store key).map (fun c => parse c)

/-- C9: from any in-sync state (mount included) and for any activation,
the in-sync property is preserved, and a present value is never rolled
back: whenever the store read resolves, the value after the activation is
either unchanged or the activation's own freshly fetched value — a failed
attempt (refresh included) can only re-serve the same value, never an
older one. -/
theorem no_rollback_from_synced {T : Type} (key : String) (stringify : T → String)
    (parse : String → T) (fetch : FetchOutcome T) (setOk getOk isRefresh : Bool)
    (st : QueryState T) (store : Store)
    (hrt : ∀ v : T, parse (stringify v) = v)
    (hs : Synced key parse st store) :
    Synced key parse
      (loadData key stringify parse fetch setOk getOk isRefresh st store).state
      (loadData key stringify parse fetch setOk getOk isRefresh st store).store ∧
    (∀ d, st.data = some d → getOk = true →
      (loadData key stringify parse fetch setOk getOk isRefresh st store).state.data
        = some d ∨
      ∃ v, fetch = .ok v ∧ setOk = true ∧
        (loadData key stringify parse fetch setOk getOk isRefresh st store).state.data
          = some v) := by
  have hfall : ∀ d, st.data = some d →
      (fallbackSeg key parse (startSeg isRefresh st) store).data = some d := by
    intro d hd
    rcases hs with hnone | hsync
    · rw [hd] at hnone; cases hnone
    · rw [hd] at hsync
      cases hget : Store.get store key with
      | none => rw [hget] at hsync; cases hsync
      | some c =>
          rw [hget] at hsync
          cases isRefresh <;>
            simp_all [fallbackSeg, startSeg, hget]
  have hfallSync : Synced key parse (fallbackSeg key parse (startSeg isRefresh st) store)
      store := by
    cases hget : Store.get store key with
    | none =>
        rcases hs with hnone | hsync
        · cases isRefresh <;> simp_all [Synced, fallbackSeg, startSeg, hget]
        · cases isRefresh <;> simp_all [Synced, fallbackSeg, startSeg, hget]
    | some c =>
        right
        cases isRefresh <;> simp [fallbackSeg, startSeg, hget]
  cases fetch with
  | ok v =>
      cases hset : setOk with
      | true =>
          constructor
          · right
            cases isRefresh <;>
              simp [loadData, successSeg, startSeg, Store.get_set, hrt v]
          · intro d _ _
            right
            exact ⟨v, rfl, rfl, by
              cases isRefresh <;> simp [loadData, successSeg, startSeg]⟩
      | false =>
          cases hg : getOk with
          | true =>
              constructor
              · simpa [loadData] using hfallSync
              · intro d hd _
                left
                simpa [loadData] using hfall d hd
          | false =>
              constructor
              · rcases hs with hnone | hsync
                · left
                  cases isRefresh <;> simp_all [loadData, rejectSeg, startSeg]
                · right
                  cases isRefresh <;> simp_all [loadData, rejectSeg, startSeg]
              · intro d _ hgt
                cases hgt
  | err =>
      cases hg : getOk with
      | true =>
          constructor
          · simpa [loadData] using hfallSync
          · intro d hd _
            left
            simpa [loadData] using hfall d hd
      | false =>
          constructor
          · rcases hs with hnone | hsync
            · left
              cases isRefresh <;> simp_all [loadData, rejectSeg, startSeg]
            · right
              cases isRefresh <;> simp_all [loadData, rejectSeg, startSeg]
          · intro d _ hgt
            cases hgt

/-- C9 (witness): a concrete in-sync state holding true under key k whose
refresh attempt fails — the value is not rolled back. -/
theorem no_rollback_from_synced_witness :
    Synced "k" (fun s => s == "t")
      (loadData "k" (fun b : Bool => cond b "t" "f") (fun s => s == "t")
        .err true true true ⟨some true, false, false, false⟩ [("k", "t")]).state
      (loadData "k" (fun b : Bool => cond b "t" "f") (fun s => s == "t")
        .err true true true ⟨some true, false, false, false⟩ [("k", "t")]).store ∧
    (∀ d, (⟨some true, false, false, false⟩ : QueryState Bool).data = some d → true = true →
      (loadData "k" (fun b : Bool => cond b "t" "f") (fun s => s == "t")
        .err true true true ⟨some true, false, false, false⟩ [("k", "t")]).state.data
        = some d ∨
      ∃ v, (FetchOutcome.err : FetchOutcome Bool) = .ok v ∧ true = true ∧
        (loadData "k" (fun b : Bool => cond b "t" "f") (fun s => s == "t")
          .err true true true ⟨some true, false, false, false⟩ [("k", "t")]).state.data
          = some v) :=
  no_rollback_from_synced "k" (fun b : Bool => cond b "t" "f") (fun s => s == "t")
    .err true true true ⟨some true, false, false, false⟩ [("k", "t")]
    (by decide) (by unfold Synced; right; decide)

/-- C6 (counterexample): a hook steady on key k1 with in-memory value 5;
the key changes to k2, the full sequence does re-run, but its producer
rejects and no cache entry exists under k2 — the previous key's in-memory
value 5 survives the key change instead of being discarded. -/
theorem key_change_retains_stale_data :
    (render (fun n : Nat => toString n) (fun s => s.length)
        ⟨⟨some 5, false, false, false⟩, [("k1", "5")], "k1", 0, some 0⟩
        "k2" 7 ⟨.err, true, true⟩).qs.data = some 5 ∧
    (render (fun n : Nat => toString n) (fun s => s.length)
        ⟨⟨some 5, false, false, false⟩, [("k1", "5")], "k1", 0, some 0⟩
        "k2" 7 ⟨.err, true, true⟩).qs.isOffline = true := by
  constructor <;> decide

/-- C6 (amended): from a steady hook (its effect has run for the current
loadData identity), a render with a changed key re-runs the full
fetch/fallback sequence as a fresh automatic activation under the new key
— the resulting state and store are exactly those of loadData there, so
the previous value is replaced except when that sequence fails with no
cache entry under the new key — while a render that changes only the
producer identity, the key unchanged, re-runs nothing: state and store
are untouched. -/
theorem render_reruns_iff_key_changes {T : Type} (stringify : T → String)
    (parse : String → T) (h : Hook T) (key : String) (fid : Nat) (out : Activation T)
    (hsteady : h.effectDepId = some h.callbackId) :
    (key ≠ h.memoKey →
      (render stringify parse h key fid out).qs
        = (loadData key stringify parse out.fetch out.setOk out.getOk
            false h.qs h.store).state ∧
      (render stringify parse h key fid out).store
        = (loadData key stringify parse out.fetch out.setOk out.getOk
            false h.qs h.store).store) ∧
    (key = h.memoKey →
      (render stringify parse h key fid out).qs = h.qs ∧
      (render stringify parse h key fid out).store = h.store) := by
  constructor
  · intro hne
    simp [render, hne, hsteady, Nat.succ_ne_self]
  · intro hk
    simp [render, hk, hsteady]

/-- C6 (witness): a concrete steady hook on key k1; a render with key k2
re-runs the sequence (new state equals loadData's outcome under k2), and
a render with key k1 but a different producer identity changes nothing. -/
theorem render_reruns_iff_key_changes_witness :
    ((render (fun n : Nat => toString n) (fun s => s.length)
        ⟨⟨some 3, false, false, false⟩, [("k1", "3")], "k1", 4, some 4⟩
        "k2" 9 ⟨.ok 7, true, true⟩).qs
      = (loadData "k2" (fun n : Nat => toString n) (fun s => s.length)
          (.ok 7) true true false ⟨some 3, false, false, false⟩ [("k1", "3")]).state ∧
     (render (fun n : Nat => toString n) (fun s => s.length)
        ⟨⟨some 3, false, false, false⟩, [("k1", "3")], "k1", 4, some 4⟩
        "k2" 9 ⟨.ok 7, true, true⟩).store
      = (loadData "k2" (fun n : Nat => toString n) (fun s => s.length)
          (.ok 7) true true false ⟨some 3, false, false, false⟩ [("k1", "3")]).store) ∧
    ((render (fun n : Nat => toString n) (fun s => s.length)
        ⟨⟨some 3, false, false, false⟩, [("k1", "3")], "k1", 4, some 4⟩
        "k1" 9 ⟨.ok 7, true, true⟩).qs = ⟨some 3, false, false, false⟩ ∧
     (render (fun n : Nat => toString n) (fun s => s.length)
        ⟨⟨some 3, false, false, false⟩, [("k1", "3")], "k1", 4, some 4⟩
        "k1" 9 ⟨.ok 7, true, true⟩).store = [("k1", "3")]) :=
  ⟨(render_reruns_iff_key_changes (fun n : Nat => toString n) (fun s => s.length)
      ⟨⟨some 3, false, false, false⟩, [("k1", "3")], "k1", 4, some 4⟩
      "k2" 9 ⟨.ok 7, true, true⟩ rfl).1 (by decide),
   (render_reruns_iff_key_changes (fun n : Nat => toString n) (fun s => s.length)
      ⟨⟨some 3, false, false, false⟩, [("k1", "3")], "k1", 4, some 4⟩
      "k1" 9 ⟨.ok 7, true, true⟩ rfl).2 rfl⟩
